import Mathlib

/-!
Shallow embedding of the nicodb streaming-data pipeline
(streamings/management/commands/get_streaming_data.py,
streamings/management/commands/get_streaming_data_range.py and
streamings/models.py), together with theorems settling the spec claims.

Modelling conventions:
* Datetimes are represented by their Unix epoch seconds (UTC) as Int.
* Python values that flow through the untyped StreamingData dataclass as
  either int or str are represented by the sum type PyVal; Python int(x)
  coercion is pyvalToInt.
* Durations are either a timedelta (seconds) or the formatted HH:MM:SS
  string that calculate_duration produces, mirroring the two runtime
  shapes stored in StreamingData.duration_time.
* Database tables are lists of rows; auto-managed created_at timestamps
  (needed only for Streamer ordering) come from a strictly increasing
  logical clock.  Channel and Streaming timestamps are never consulted by
  the code under verification and are not modelled.
-/

namespace Nicodb

/-- A Python scalar that is either an int or a str; the StreamingData
dataclass holds ints on the HTTP-error sentinel path and strings on the
extraction path for the same fields. -/
inductive PyVal where
  | int (n : Int)
  | str (s : String)
deriving DecidableEq, Repr

/-- Python int(x) applied to a PyVal: ints pass through, strings are
parsed as decimal integers, anything unparsable raises ValueError
(modelled as none). -/
def pyvalToInt : PyVal → Option Int
  | .int n => some n
  | .str s => s.toInt?

/-- settings.UNKNOWN_STREAMING_TITLE (environment-provided; value as
exercised by the repository test-suite). -/
def UNKNOWN_STREAMING_TITLE : String := "-- 存在しない配信 --"

/-- settings.UNKNOWN_STREAMER_ID. -/
def UNKNOWN_STREAMER_ID : Int := 0

/-- settings.UNKNOWN_STREAMER_NAME. -/
def UNKNOWN_STREAMER_NAME : String := "-- 存在しない配信者 --"

/-- settings.UNKNOWN_CHANNEL_ID. -/
def UNKNOWN_CHANNEL_ID : Int := 0

/-- settings.UNKNOWN_CHANNEL_NAME. -/
def UNKNOWN_CHANNEL_NAME : String := "-- 存在しないチャンネル --"

/-- settings.UNKNOWN_COMPANY_NAME. -/
def UNKNOWN_COMPANY_NAME : String := "-- 存在しない企業 --"

/-- Python str.removeprefix: drop p from the front of s when s starts
with p, otherwise return s unchanged. -/
def stripLeading (p s : String) : String :=
  if p.data.isPrefixOf s.data then String.mk (s.data.drop p.data.length) else s

/-- streamings/constants.py StreamingStatus. -/
inductive StreamingStatus where
  | RESERVED
  | ON_AIR
  | ENDED
deriving DecidableEq, Repr

/-- Numeric value of each StreamingStatus member. -/
def StreamingStatus.value : StreamingStatus → Int
  | .RESERVED => 10
  | .ON_AIR => 20
  | .ENDED => 30

/-- Name lookup in the StreamingStatus enum (Python StreamingStatus[s]). -/
def streamingStatusOfName : String → Option StreamingStatus
  | "RESERVED" => some .RESERVED
  | "ON_AIR" => some .ON_AIR
  | "ENDED" => some .ENDED
  | _ => none

/-- streamings/constants.py StreamingType. -/
inductive StreamingType where
  | UNKNOWN
  | USER
  | CHANNEL
  | COMPANY
deriving DecidableEq, Repr

/-- Numeric value of each StreamingType member. -/
def StreamingType.value : StreamingType → Int
  | .UNKNOWN => 0
  | .USER => 10
  | .CHANNEL => 20
  | .COMPANY => 30

/-- The runtime value stored in StreamingData.duration_time: the sentinel
path stores timedelta(0), the extraction path stores the formatted
HH:MM:SS string. -/
inductive DurationVal where
  | timedelta (seconds : Int)
  | formatted (s : String)
deriving DecidableEq, Repr

/-- The errors raised by extraction and normalization, keyed by the
Python exception messages (ValueError carrying the missing key name,
unknown status, unknown provider type, negative time range). -/
inductive ExtractError where
  | missingField (name : String)
  | unknownStatus (status : String)
  | unknownProviderType (id ty : String)
  | invalidTimeRange
deriving DecidableEq, Repr

/-- Command.convert_unix_to_datetime: instants are modelled by their
epoch seconds, so the conversion is the identity on the value. -/
def convert_unix_to_datetime (unix_time : Int) : Int := unix_time

/-- Command.convert_streaming_status_to_code: enum name lookup; a
KeyError is re-raised as ValueError for unknown names. -/
def convert_streaming_status_to_code (status : String) : Except ExtractError Int :=
  match streamingStatusOfName status with
  | some st => Except.ok st.value
  | none => Except.error (ExtractError.unknownStatus status)

/-- Python f-string 02-width zero padding of an integer. -/
def pad2 (n : Int) : String :=
  if 0 ≤ n ∧ n < 10 then "0" ++ toString n else toString n

/-- The HH:MM:SS rendering built by calculate_duration. -/
def formatHMS (h m s : Int) : String :=
  pad2 h ++ ":" ++ pad2 m ++ ":" ++ pad2 s

/-- Command.calculate_duration: raises ValueError when end_time is
before start_time, otherwise renders divmod(end-start, 3600) and
divmod(remainder, 60) as HH:MM:SS.  Python floor division with the
positive divisors 3600 and 60 coincides with Euclidean division. -/
def calculate_duration (start_time end_time : Int) : Except ExtractError String :=
  if end_time < start_time then Except.error ExtractError.invalidTimeRange
  else
    let duration_seconds := end_time - start_time
    let hours := duration_seconds / 3600
    let remainder := duration_seconds % 3600
    let minutes := remainder / 60
    let seconds := remainder % 60
    Except.ok (formatHMS hours minutes seconds)

/-- The supplier sub-dictionary of the decoded data-props payload; every
key access in the code is defensive (dict.get), hence Option fields. -/
structure Supplier where
  programProviderId : Option String
  name : Option String
deriving DecidableEq, Repr

/-- The socialGroup sub-dictionary of the decoded payload. -/
structure SocialGroup where
  id : Option String
  name : Option String
  companyName : Option String
deriving DecidableEq, Repr

/-- The program sub-dictionary of the decoded payload; required keys are
accessed with [] (KeyError when absent), supplier with .get. -/
structure Program where
  nicoliveProgramId : Option String
  title : Option String
  beginTime : Option Int
  endTime : Option Int
  status : Option String
  providerType : Option String
  supplier : Option Supplier
deriving DecidableEq, Repr

/-- The decoded data-props dictionary. -/
structure DataProps where
  program : Option Program
  socialGroup : Option SocialGroup
deriving DecidableEq, Repr

/-- Python d[key]: KeyError (reported as ValueError naming the key) when
the key is absent. -/
def getOrMissing {α : Type} (o : Option α) (name : String) : Except ExtractError α :=
  match o with
  | some v => Except.ok v
  | none => Except.error (ExtractError.missingField name)

/-- The StreamingData dataclass of get_streaming_data.py, with field
types as actually populated at runtime. -/
structure StreamingData where
  id : PyVal
  type : Int
  title : String
  start_time : Int
  end_time : Int
  duration_time : DurationVal
  status : Int
  streamer_id : PyVal
  streamer_name : String
  channel_id : PyVal
  channel_name : String
  company_name : String
deriving DecidableEq, Repr

/-- Command.extract_streaming_data, with field accesses in the source
evaluation order: program, (supplier via .get), providerType, then the
common_data dict literal (nicoliveProgramId, title, beginTime, endTime,
status including the status-code conversion), then the providerType
branch, and finally calculate_duration. -/
def extract_streaming_data (d : DataProps) : Except ExtractError StreamingData := do
  let program ← getOrMissing d.program "program"
  let supplier := program.supplier.getD { programProviderId := none, name := none }
  let provider_type ← getOrMissing program.providerType "providerType"
  let raw_id ← getOrMissing program.nicoliveProgramId "nicoliveProgramId"
  let id := stripLeading "lv" raw_id
  let title ← getOrMissing program.title "title"
  let beginTime ← getOrMissing program.beginTime "beginTime"
  let start_time := convert_unix_to_datetime beginTime
  let endTime ← getOrMissing program.endTime "endTime"
  let end_time := convert_unix_to_datetime endTime
  let status_name ← getOrMissing program.status "status"
  let status ← convert_streaming_status_to_code status_name
  let provider_data ←
    if provider_type = "community" then
      Except.ok
        (StreamingType.USER.value,
         (match supplier.programProviderId with
          | some s => PyVal.str s
          | none => PyVal.int UNKNOWN_STREAMER_ID),
         supplier.name.getD UNKNOWN_STREAMER_NAME,
         PyVal.int UNKNOWN_CHANNEL_ID,
         UNKNOWN_CHANNEL_NAME,
         UNKNOWN_COMPANY_NAME)
    else if provider_type = "channel" then do
      let sg ← getOrMissing d.socialGroup "socialGroup"
      let sg_id ← getOrMissing sg.id "id"
      let sg_name ← getOrMissing sg.name "name"
      let sg_company ← getOrMissing sg.companyName "companyName"
      Except.ok
        (StreamingType.CHANNEL.value, PyVal.int UNKNOWN_STREAMER_ID,
         UNKNOWN_STREAMER_NAME, PyVal.str (stripLeading "ch" sg_id),
         sg_name, sg_company)
    else if provider_type = "official" then do
      let sg ← getOrMissing d.socialGroup "socialGroup"
      let sg_id ← getOrMissing sg.id "id"
      let sg_name ← getOrMissing sg.name "name"
      let sg_company ← getOrMissing sg.companyName "companyName"
      Except.ok
        (StreamingType.COMPANY.value, PyVal.int UNKNOWN_STREAMER_ID,
         UNKNOWN_STREAMER_NAME, PyVal.str (stripLeading "ch" sg_id),
         sg_name, sg_company)
    else
      Except.error (ExtractError.unknownProviderType id provider_type)
  let duration ← calculate_duration beginTime endTime
  Except.ok
    { id := PyVal.str id
      type := provider_data.1
      title := title
      start_time := start_time
      end_time := end_time
      duration_time := DurationVal.formatted duration
      status := status
      streamer_id := provider_data.2.1
      streamer_name := provider_data.2.2.1
      channel_id := provider_data.2.2.2.1
      channel_name := provider_data.2.2.2.2.1
      company_name := provider_data.2.2.2.2.2 }

/-- Declared options of a model field (streamings/models.py); only the
uniqueness flag is relevant to the claims. -/
structure FieldOptions where
  unique : Bool
deriving DecidableEq, Repr

/-- models.py: Streaming.streaming_id = models.BigIntegerField(verbose_name=...)
declares no unique constraint. -/
def Streaming_streaming_id_options : FieldOptions := { unique := false }

/-- models.py: Channel.channel_id = models.BigIntegerField(unique=True, ...). -/
def Channel_channel_id_options : FieldOptions := { unique := true }

/-- A row of the Streamer table; created_at is the auto_now_add
timestamp, drawn from a strictly increasing logical clock. -/
structure StreamerRow where
  streamer_id : Int
  name : String
  created_at : Nat
deriving DecidableEq, Repr

/-- The Streamer table plus the logical clock producing auto_now_add
timestamps. -/
structure StreamerTable where
  rows : List StreamerRow
  clock : Nat
deriving DecidableEq, Repr

/-- Fold step selecting the row with the greatest created_at. -/
def maxByCreated (acc : Option StreamerRow) (r : StreamerRow) : Option StreamerRow :=
  match acc with
  | none => some r
  | some b => if b.created_at < r.created_at then some r else some b

/-- Streamer.objects.filter(streamer_id=sid).order_by("-created_at").first():
the matching row with the greatest created_at, if any. -/
def latest_streamer (rows : List StreamerRow) (sid : Int) : Option StreamerRow :=
  (rows.filter (fun r => r.streamer_id == sid)).foldl maxByCreated none

/-- Command.save_or_get_streamer: return the most recent row for the id
when its name matches, otherwise append a fresh row (rename history). -/
def save_or_get_streamer (streamer_id : Int) (streamer_name : String)
    (t : StreamerTable) : StreamerRow × StreamerTable :=
  let fresh : StreamerRow :=
    { streamer_id := streamer_id, name := streamer_name, created_at := t.clock }
  match latest_streamer t.rows streamer_id with
  | none => (fresh, { rows := t.rows ++ [fresh], clock := t.clock + 1 })
  | some latest =>
    if latest.name = streamer_name then (latest, t)
    else (fresh, { rows := t.rows ++ [fresh], clock := t.clock + 1 })

/-- A row of the Channel table (auto timestamps not modelled; they are
never read by the code under verification). -/
structure ChannelRow where
  channel_id : Int
  name : String
  company_name : String
deriving DecidableEq, Repr

/-- Django update_or_create on a list-backed table: overwrite the rows
matched by the key predicate in place, or append the fresh row when no
row matches. -/
def upsertList {α : Type} (p : α → Bool) (fresh : α) (rows : List α) : List α :=
  if rows.any p then rows.map (fun r => if p r then fresh else r)
  else rows ++ [fresh]

/-- Command.create_or_update_channel:
Channel.objects.update_or_create(channel_id=..., defaults=...) — update
the existing row for the id in place, or append a fresh one.  The DB
unique constraint on channel_id guarantees at most one match. -/
def create_or_update_channel (channel_id : Int) (channel_name company_name : String)
    (rows : List ChannelRow) : ChannelRow × List ChannelRow :=
  let fresh : ChannelRow :=
    { channel_id := channel_id, name := channel_name, company_name := company_name }
  (fresh, upsertList (fun r => r.channel_id == channel_id) fresh rows)

/-- A row of the Streaming table; the foreign keys are modelled by the
referenced row values (rows are immutable once written for Streamer, and
the reference recorded is the one active at write time). -/
structure StreamingRow where
  streaming_id : Int
  type : Int
  title : String
  start_time : Int
  end_time : Int
  duration_time : DurationVal
  status : Int
  streamer : StreamerRow
  channel : ChannelRow
deriving DecidableEq, Repr

/-- The Streaming row written for a StreamingData once the lookup key
has been coerced to the BigInteger column type. -/
def mkStreamingRow (data : StreamingData) (streamer : StreamerRow)
    (channel : ChannelRow) (sid : Int) : StreamingRow :=
  { streaming_id := sid
    type := data.type
    title := data.title
    start_time := data.start_time
    end_time := data.end_time
    duration_time := data.duration_time
    status := data.status
    streamer := streamer
    channel := channel }

/-- Command.save_or_update_streaming:
Streaming.objects.update_or_create(streaming_id=data.id, defaults=...).
The lookup value is coerced to the integer column type (ValueError, i.e.
none, when data.id is an unparsable string); an existing row for the id
is overwritten in place, otherwise a row is appended. -/
def save_or_update_streaming (data : StreamingData) (streamer : StreamerRow)
    (channel : ChannelRow) (rows : List StreamingRow) : Option (List StreamingRow) := do
  let sid ← pyvalToInt data.id
  some (upsertList (fun r => r.streaming_id == sid)
    (mkStreamingRow data streamer channel sid) rows)

/-- The three persisted stores. -/
structure Database where
  streamers : StreamerTable
  channels : List ChannelRow
  streamings : List StreamingRow
deriving DecidableEq, Repr

/-- Command.save_streaming_data: int() coercions of the dataclass ids,
then streamer resolution, channel upsert and streaming upsert in source
order; any coercion failure raises (none). -/
def save_streaming_data (data : StreamingData) (db : Database) : Option Database := do
  let sid ← pyvalToInt data.streamer_id
  let streamerPair := save_or_get_streamer sid data.streamer_name db.streamers
  let cid ← pyvalToInt data.channel_id
  let channelPair :=
    create_or_update_channel cid data.channel_name data.company_name db.channels
  let streamings ← save_or_update_streaming data streamerPair.1 channelPair.1 db.streamings
  some { streamers := streamerPair.2, channels := channelPair.2, streamings := streamings }

/-- Epoch seconds of 2007-12-25T00:00:00Z, the fixed sentinel datetime
datetime(2007, 12, 25, tzinfo=timezone.utc). -/
def sentinel_datetime : Int := 1198540800

/-- The sentinel StreamingData recorded for an unreachable stream: the
HTTP status code in the status field and placeholder values
everywhere else. -/
def httpErrorData (status_code streaming_id : Int) : StreamingData :=
  { id := PyVal.int streaming_id
    type := StreamingType.UNKNOWN.value
    title := UNKNOWN_STREAMING_TITLE
    start_time := sentinel_datetime
    end_time := sentinel_datetime
    duration_time := DurationVal.timedelta 0
    status := status_code
    streamer_id := PyVal.int UNKNOWN_STREAMER_ID
    streamer_name := UNKNOWN_STREAMER_NAME
    channel_id := PyVal.int UNKNOWN_CHANNEL_ID
    channel_name := UNKNOWN_CHANNEL_NAME
    company_name := UNKNOWN_COMPANY_NAME }

/-- Command.save_streaming_with_http_error: persist the sentinel
StreamingData for an unreachable stream, with the HTTP status code in
the status field. -/
def save_streaming_with_http_error (status_code : Int) (streaming_id : Int)
    (db : Database) : Option Database :=
  save_streaming_data (httpErrorData status_code streaming_id) db

/-- Decimal value of a digit run. -/
def digitsToNat (ds : List Char) : Nat :=
  ds.foldl (fun acc c => acc * 10 + (c.toNat - 48)) 0

/-- Leftmost match of the regular expression lv(\d+): find the first
occurrence of the letters l v followed by at least one digit and return
the value of the maximal digit run. -/
def findLvId : List Char → Option Nat
  | [] => none
  | c :: rest =>
    if c = 'l' then
      match rest with
      | 'v' :: rest2 =>
        let ds := rest2.takeWhile Char.isDigit
        if ds.isEmpty then findLvId rest else some (digitsToNat ds)
      | _ => findLvId rest
    else findLvId rest

/-- Command.extract_streaming_id: re.search of lv(\d+) over the URL;
ValueError (none) when no match exists. -/
def extract_streaming_id (url : String) : Option Nat :=
  findLvId url.data

/-- Command.build_streaming_url: settings.STREAMING_BASE_URL concatenated
with the id (the base URL is environment configuration, passed in). -/
def build_streaming_url (base streaming_id : String) : String :=
  base ++ streaming_id

/-- The observed HTTP response for a fetch (transport faults are out of
scope of the claims). -/
structure HttpResponse where
  status_code : Int
  text : String
deriving DecidableEq, Repr

/-- Command.fetch_html: status 200 returns the body; otherwise the id is
extracted from the URL (ValueError when absent, propagated as none), the
HTTP-error sentinel row is persisted and no content (none) is returned. -/
def fetch_html (url : String) (response : HttpResponse) (db : Database) :
    Option (Option String × Database) :=
  if response.status_code = 200 then some (some response.text, db)
  else do
    let sid ← extract_streaming_id url
    let db2 ← save_streaming_with_http_error response.status_code (Int.ofNat sid) db
    some (none, db2)

/-- Command.handle of get_streaming_data.py: build the URL, fetch, and
when content was returned run the remaining pipeline stages (script-tag
search, JSON decode, extraction, persistence), abstracted here as the
rest function; a fetch that returned no content ends the command after
the sentinel write, and an exception (none) propagates. -/
def handle_single (base streaming_id : String) (response : HttpResponse)
    (rest : String → Database → Option Database) (db : Database) : Option Database :=
  match fetch_html (build_streaming_url base streaming_id) response db with
  | none => none
  | some (none, db2) => some db2
  | some (some html, db2) => rest html db2

/-- Log entries emitted by the range command (start marker, completion
marker, per-id failure). -/
inductive LogEntry where
  | start (start_id end_id : Int)
  | done (start_id end_id : Int)
  | failure (streaming_id : Int)
deriving DecidableEq, Repr

/-- Command.validate_ids of get_streaming_data_range.py: Python
end_id or start_id coalesces a falsy end_id (None or 0) to start_id;
afterwards start_id > end_id raises CommandError. -/
def validate_ids (start_id : Int) (end_id : Option Int) : Except String (Int × Int) :=
  let e :=
    match end_id with
    | none => start_id
    | some v => if v = 0 then start_id else v
  if start_id > e then Except.error "開始IDは終了IDより小さい値にしてください。"
  else Except.ok (start_id, e)

/-- Python range(start_id, end_id + 1) as a list of Int. -/
def idRange (start_id end_id : Int) : List Int :=
  (List.range (end_id - start_id + 1).toNat).map (fun (i : Nat) => start_id + (i : Int))

/-- Command.fetch_and_save_streaming_data: call the single-id command
(abstracted as runOne); an exception is caught and logged as a failure
entry and never propagates.  Returns the emitted log entries and the
list of pipeline invocations the call performed. -/
def fetch_and_save_streaming_data (runOne : Int → Except String Unit)
    (streaming_id : Int) : List LogEntry × List Int :=
  match runOne streaming_id with
  | Except.ok _ => ([], [streaming_id])
  | Except.error _ => ([LogEntry.failure streaming_id], [streaming_id])

/-- Command.fetch_streaming_data_range: loop over
range(start_id, end_id + 1) invoking fetch_and_save_streaming_data once
per id, accumulating logs and invocations in order. -/
def fetch_streaming_data_range (runOne : Int → Except String Unit)
    (start_id end_id : Int) : List LogEntry × List Int :=
  (idRange start_id end_id).foldl
    (fun acc i =>
      let step := fetch_and_save_streaming_data runOne i
      (acc.1 ++ step.1, acc.2 ++ step.2))
    ([], [])

/-- Command.handle of get_streaming_data_range.py: validate the ids,
then log start, run the range, log completion.  The result is the
command outcome with its log, paired with the list of single-id
pipeline invocations that occurred (empty when validation failed). -/
def handle_range (runOne : Int → Except String Unit) (start_id : Int)
    (end_id : Option Int) : Except String (List LogEntry) × List Int :=
  match validate_ids start_id end_id with
  | Except.error msg => (Except.error msg, [])
  | Except.ok (s, e) =>
    let body := fetch_streaming_data_range runOne s e
    (Except.ok ([LogEntry.start s e] ++ body.1 ++ [LogEntry.done s e]), body.2)

/-- The row predicate used by the Streaming upsert lookup. -/
def streamingKey (n : Int) : StreamingRow → Bool :=
  fun r => r.streaming_id == n

/-- The sentinel Streaming row that save_streaming_with_http_error
writes, referencing the streamer and channel rows resolved at write
time. -/
def httpErrorRow (code sidInt : Int) (db : Database) : StreamingRow :=
  mkStreamingRow (httpErrorData code sidInt)
    (save_or_get_streamer UNKNOWN_STREAMER_ID UNKNOWN_STREAMER_NAME db.streamers).1
    (create_or_update_channel UNKNOWN_CHANNEL_ID UNKNOWN_CHANNEL_NAME
      UNKNOWN_COMPANY_NAME db.channels).1 sidInt

/-- The database state after save_streaming_with_http_error. -/
def httpErrorDb (code sidInt : Int) (db : Database) : Database :=
  { streamers := (save_or_get_streamer UNKNOWN_STREAMER_ID UNKNOWN_STREAMER_NAME db.streamers).2
    channels := (create_or_update_channel UNKNOWN_CHANNEL_ID UNKNOWN_CHANNEL_NAME
      UNKNOWN_COMPANY_NAME db.channels).2
    streamings := upsertList (streamingKey sidInt) (httpErrorRow code sidInt db) db.streamings }

/-- One recorded invocation of Command.save_or_update_streaming. -/
structure UpsertCall where
  data : StreamingData
  streamer : StreamerRow
  channel : ChannelRow

/-- The row an upsert call writes, when its lookup key coerces. -/
def writeRow (c : UpsertCall) : Option StreamingRow :=
  (pyvalToInt c.data.id).map (mkStreamingRow c.data c.streamer c.channel)

/-- Apply one upsert call to the Streaming table; a raising call (key
coercion failure) leaves the table unchanged. -/
def apply_one (rows : List StreamingRow) (c : UpsertCall) : List StreamingRow :=
  match save_or_update_streaming c.data c.streamer c.channel rows with
  | some rows2 => rows2
  | none => rows

/-- Apply a sequence of upsert calls in order. -/
def apply_upserts (calls : List UpsertCall) (rows : List StreamingRow) : List StreamingRow :=
  calls.foldl apply_one rows

/-- The last row written for a given streaming id by a call sequence. -/
def lastWrite (calls : List UpsertCall) (n : Int) : Option StreamingRow :=
  ((calls.filterMap writeRow).filter (streamingKey n)).getLast?

/-- A concrete upsert call used to witness the upsert theorems. -/
def exampleCall : UpsertCall :=
  { data :=
      { id := PyVal.int 5
        type := 10
        title := "t"
        start_time := 0
        end_time := 1
        duration_time := DurationVal.formatted "00:00:01"
        status := 30
        streamer_id := PyVal.int 1
        streamer_name := "s"
        channel_id := PyVal.int 0
        channel_name := "c"
        company_name := "co" }
    streamer := { streamer_id := 1, name := "s", created_at := 0 }
    channel := { channel_id := 0, name := "c", company_name := "co" } }

/-- The first required program key reported missing by
extract_streaming_data, in the evaluation order of the source:
providerType is read before the common_data dict literal is built. -/
def firstMissingKey (p : Program) : Option String :=
  if p.providerType.isNone then some "providerType"
  else if p.nicoliveProgramId.isNone then some "nicoliveProgramId"
  else if p.title.isNone then some "title"
  else if p.beginTime.isNone then some "beginTime"
  else if p.endTime.isNone then some "endTime"
  else if p.status.isNone then some "status"
  else none

/-- The failure log entry produced for one id of a range run, if any. -/
def failureEntry (runOne : Int → Except String Unit) (i : Int) : Option LogEntry :=
  match runOne i with
  | Except.ok _ => none
  | Except.error _ => some (LogEntry.failure i)

/-- The community payload of the happy-path scenario (repository test
fixture valid_dict_data). -/
def payloadCommunityLv : DataProps :=
  { program := some
      { nicoliveProgramId := some "lv346883570"
        title := some "ドライブ配信"
        beginTime := some 1737936000
        endTime := some 1737950400
        status := some "ENDED"
        providerType := some "community"
        supplier := some { programProviderId := some "52053485", name := some "3時サブ垢" } }
    socialGroup := none }

/-- A channel-provider payload whose socialGroup id carries the ch
prefix. -/
def payloadChannelCh : DataProps :=
  { program := some
      { nicoliveProgramId := some "lv346883570"
        title := some "ドライブ配信"
        beginTime := some 1737936000
        endTime := some 1737950400
        status := some "ENDED"
        providerType := some "channel"
        supplier := none }
    socialGroup := some
      { id := some "ch123", name := some "テスト", companyName := some "テスト社" } }

/-- A payload whose program lacks both nicoliveProgramId and
providerType. -/
def payloadBothMissing : DataProps :=
  { program := some
      { nicoliveProgramId := none
        title := some "t"
        beginTime := some 0
        endTime := some 1
        status := some "ENDED"
        providerType := none
        supplier := none }
    socialGroup := none }

/-- A Streamer table whose single row for id 1 already bears name A. -/
def seededStreamer : StreamerTable :=
  { rows := [{ streamer_id := 1, name := "A", created_at := 0 }], clock := 1 }

/-! Helper lemmas shared by the claim theorems. -/

@[simp]
theorem getOrMissing_some {α : Type} (v : α) (nm : String) :
    getOrMissing (some v) nm = Except.ok v := rfl

@[simp]
theorem getOrMissing_none {α : Type} (nm : String) :
    getOrMissing (none : Option α) nm = Except.error (ExtractError.missingField nm) := rfl

@[simp]
theorem except_ok_bind {ε α β : Type} (a : α) (f : α → Except ε β) :
    (Except.ok a >>= f) = f a := rfl

@[simp]
theorem except_error_bind {ε α β : Type} (e : ε) (f : α → Except ε β) :
    ((Except.error e : Except ε α) >>= f) = Except.error e := rfl

@[simp]
theorem option_some_bind {α β : Type} (a : α) (f : α → Option β) :
    ((some a : Option α) >>= f) = f a := rfl

@[simp]
theorem option_none_bind {α β : Type} (f : α → Option β) :
    ((none : Option α) >>= f) = none := rfl

theorem upsertList_any {α : Type} (p : α → Bool) (fresh : α) (rows : List α)
    (hp : p fresh = true) : (upsertList p fresh rows).any p = true := by
  unfold upsertList
  by_cases h : rows.any p = true
  · rw [if_pos h]
    rw [List.any_eq_true] at h ⊢
    obtain ⟨x, hx, hpx⟩ := h
    refine ⟨fresh, List.mem_map.mpr ⟨x, hx, ?_⟩, hp⟩
    simp [hpx]
  · rw [if_neg h, List.any_eq_true]
    exact ⟨fresh, by simp, hp⟩

theorem upsertList_filter_pos {α : Type} (p : α → Bool) (fresh : α) (rows : List α)
    (hp : p fresh = true) (hinv : rows.countP p ≤ 1) :
    (upsertList p fresh rows).filter p = [fresh] := by
  unfold upsertList
  by_cases h : rows.any p = true
  · rw [if_pos h]
    have hone : rows.countP p = 1 := by
      have hpos : 0 < rows.countP p := List.countP_pos_iff.mpr (List.any_eq_true.mp h)
      omega
    rw [List.filter_map]
    have hcong : rows.filter (p ∘ fun r => if p r = true then fresh else r) = rows.filter p := by
      apply List.filter_congr
      intro x _
      by_cases hx : p x = true
      · simp [hx, hp]
      · simp [hx]
    rw [hcong]
    rw [List.countP_eq_length_filter] at hone
    obtain ⟨a, ha⟩ := List.length_eq_one.mp hone
    have hpa : p a = true := (List.mem_filter.mp (by rw [ha]; exact List.mem_singleton_self a)).2
    rw [ha]
    simp [hpa]
  · rw [if_neg h, List.filter_append]
    have hnil : rows.filter p = [] := by
      rw [List.filter_eq_nil_iff]
      intro a ha hpa
      exact h (List.any_eq_true.mpr ⟨a, ha, hpa⟩)
    simp [hnil, hp]

theorem upsertList_filter_neg {α : Type} (p q : α → Bool) (fresh : α) (rows : List α)
    (hq : q fresh = false) (hpq : ∀ r, p r = true → q r = false) :
    (upsertList p fresh rows).filter q = rows.filter q := by
  unfold upsertList
  by_cases h : rows.any p = true
  · rw [if_pos h, List.filter_map]
    have hcong : rows.filter (q ∘ fun r => if p r = true then fresh else r) = rows.filter q := by
      apply List.filter_congr
      intro x _
      by_cases hx : p x = true
      · simp [hx, hq, hpq x hx]
      · simp [hx]
    rw [hcong]
    conv_rhs => rw [← List.map_id (rows.filter q)]
    apply List.map_congr_left
    intro a ha
    have hqa : q a = true := (List.mem_filter.mp ha).2
    have hpa : ¬ p a = true := by
      intro hpa
      rw [hpq a hpa] at hqa
      exact Bool.false_ne_true hqa
    simp [hpa]
  · rw [if_neg h, List.filter_append]
    simp [hq]

theorem upsertList_countP_pos {α : Type} (p : α → Bool) (fresh : α) (rows : List α)
    (hp : p fresh = true) (hinv : rows.countP p ≤ 1) :
    (upsertList p fresh rows).countP p = 1 := by
  rw [List.countP_eq_length_filter, upsertList_filter_pos p fresh rows hp hinv]
  rfl

theorem upsertList_length_of_any {α : Type} (p : α → Bool) (fresh : α) (rows : List α)
    (h : rows.any p = true) : (upsertList p fresh rows).length = rows.length := by
  unfold upsertList
  rw [if_pos h, List.length_map]

theorem upsertList_idem {α : Type} (p : α → Bool) (fresh : α) (rows : List α)
    (hp : p fresh = true) :
    upsertList p fresh (upsertList p fresh rows) = upsertList p fresh rows := by
  have hany := upsertList_any p fresh rows hp
  conv in upsertList p fresh (upsertList p fresh rows) => rw [upsertList]
  rw [if_pos hany]
  unfold upsertList
  by_cases h : rows.any p = true
  · rw [if_pos h, List.map_map]
    apply List.map_congr_left
    intro a _
    by_cases hx : p a = true
    · simp [hx, hp]
    · simp [hx]
  · rw [if_neg h, List.map_append]
    have hfix : rows.map (fun r => if p r = true then fresh else r) = rows := by
      conv_rhs => rw [← List.map_id rows]
      apply List.map_congr_left
      intro a ha
      have hpa : ¬ p a = true := by
        intro hpa
        exact h (List.any_eq_true.mpr ⟨a, ha, hpa⟩)
      simp [hpa]
    rw [hfix]
    simp [hp]

theorem stripLeading_append (p t : String) :
    stripLeading p (p ++ t) = t := by
  have hpre : p.data.isPrefixOf (p ++ t).data = true := by
    rw [List.isPrefixOf_iff_prefix, String.data_append]
    exact List.prefix_append p.data t.data
  unfold stripLeading
  rw [if_pos hpre, String.data_append, List.drop_left]

theorem stripLeading_of_not_pre (p t : String)
    (h : ¬ p.data.isPrefixOf t.data = true) : stripLeading p t = t := by
  unfold stripLeading
  rw [if_neg h]

/-- C3: for every begin/end timestamp pair, calculate_duration fails
with the invalid-time-range error exactly when end_time < start_time and
otherwise renders an HH:MM:SS value whose total seconds equal
end_time - start_time; the zero-duration case end_time = start_time is
accepted and renders as 00:00:00. -/
theorem C3_duration_invariant (start_time end_time : Int) :
    (end_time < start_time →
      calculate_duration start_time end_time = Except.error ExtractError.invalidTimeRange) ∧
    (start_time ≤ end_time →
      ∃ h m s, calculate_duration start_time end_time = Except.ok (formatHMS h m s) ∧
        h * 3600 + m * 60 + s = end_time - start_time ∧
        0 ≤ h ∧ 0 ≤ m ∧ m < 60 ∧ 0 ≤ s ∧ s < 60) ∧
    calculate_duration start_time start_time = Except.ok "00:00:00" := by
  refine ⟨fun hlt => ?_, fun hle => ?_, ?_⟩
  · unfold calculate_duration
    rw [if_pos hlt]
  · have hnot : ¬ end_time < start_time := not_lt.mpr hle
    refine ⟨(end_time - start_time) / 3600,
      ((end_time - start_time) % 3600) / 60,
      ((end_time - start_time) % 3600) % 60, ?_, ?_, ?_, ?_, ?_, ?_, ?_⟩
    · unfold calculate_duration
      rw [if_neg hnot]
    all_goals omega
  · unfold calculate_duration
    rw [if_neg (lt_irrefl start_time), sub_self]
    rfl

/-- C3 witness at the concrete pair (0, 3600). -/
theorem C3_duration_invariant_witness :
    (0 : Int) ≤ 3600 ∧
    ∃ h m s, calculate_duration 0 3600 = Except.ok (formatHMS h m s) ∧
      h * 3600 + m * 60 + s = 3600 - 0 ∧
      0 ≤ h ∧ 0 ≤ m ∧ m < 60 ∧ 0 ≤ s ∧ s < 60 :=
  ⟨by norm_num, (C3_duration_invariant 0 3600).2.1 (by norm_num)⟩

/-- C10: the payload id lv346883570 normalizes to external id
346883570 and a socialGroup id ch123 to channel id 123; stripping
removes only a leading literal lv (resp. ch) and leaves values without
that prefix untouched. -/
theorem C10_strip_leading :
    (extract_streaming_data payloadCommunityLv).map StreamingData.id =
      Except.ok (PyVal.str "346883570") ∧
    (extract_streaming_data payloadChannelCh).map StreamingData.channel_id =
      Except.ok (PyVal.str "123") ∧
    (∀ t : String, stripLeading "lv" ("lv" ++ t) = t) ∧
    (∀ t : String, stripLeading "ch" ("ch" ++ t) = t) ∧
    (∀ t : String, ¬ ("lv".data.isPrefixOf t.data = true) → stripLeading "lv" t = t) ∧
    (∀ t : String, ¬ ("ch".data.isPrefixOf t.data = true) → stripLeading "ch" t = t) := by
  refine ⟨?_, ?_, fun t => stripLeading_append "lv" t, fun t => stripLeading_append "ch" t,
    fun t ht => stripLeading_of_not_pre "lv" t ht,
    fun t ht => stripLeading_of_not_pre "ch" t ht⟩
  · rfl
  · rfl

/-- C10 witness: the general parts applied at lv346883570, ch123 and
the prefix-free value abc. -/
theorem C10_strip_leading_witness :
    stripLeading "lv" ("lv" ++ "346883570") = "346883570" ∧
    stripLeading "ch" ("ch" ++ "123") = "123" ∧
    (¬ ("lv".data.isPrefixOf "abc".data = true)) ∧
    stripLeading "lv" "abc" = "abc" :=
  ⟨C10_strip_leading.2.2.1 "346883570", C10_strip_leading.2.2.2.1 "123",
    by decide, C10_strip_leading.2.2.2.2.1 "abc" (by decide)⟩

/-- C7 counterexample: with start_id = 150 and an explicit end_id = 0 we
have start_id > end_id, yet the range command does not fail — it
coalesces the falsy 0 to start_id and performs one fetch. -/
theorem C7_counterexample :
    (150 : Int) > 0 ∧
    handle_range (fun _ => Except.ok ()) 150 (some 0) =
      (Except.ok [LogEntry.start 150 150, LogEntry.done 150 150], [150]) := by
  constructor
  · decide
  · rfl

/-- C7 (amended): an omitted end_id defaults to start_id, so
run_range(s, None) behaves identically to run_range(s, s); and whenever
start_id > end_id for a provided nonzero end_id, the command fails with
the user-facing range error and performs no pipeline invocation (a
provided end_id of 0 instead coalesces to start_id, see the
counterexample). -/
theorem C7_range_validation (runOne : Int → Except String Unit) (s e : Int) :
    handle_range runOne s none = handle_range runOne s (some s) ∧
    (e ≠ 0 → s > e →
      handle_range runOne s (some e) =
        (Except.error "開始IDは終了IDより小さい値にしてください。", [])) := by
  constructor
  · unfold handle_range validate_ids
    by_cases hs : s = 0
    · simp [hs]
    · simp [hs]
  · intro he hgt
    unfold handle_range validate_ids
    simp only [he, if_false]
    rw [if_pos hgt]

/-- C7 witness at runOne accepting everything, s = 300, e = 200. -/
theorem C7_range_validation_witness :
    (200 : Int) ≠ 0 ∧ (300 : Int) > 200 ∧
    handle_range (fun _ => Except.ok ()) 300 (some 200) =
      (Except.error "開始IDは終了IDより小さい値にしてください。", []) :=
  ⟨by decide, by decide,
    (C7_range_validation (fun _ => Except.ok ()) 300 200).2 (by decide) (by decide)⟩

/-- C8: for start_id > 0, an explicit end_id of 0 does not fail
validation despite start_id > 0 = end_id: the falsy 0 coalesces to
start_id, the run behaves exactly like run_range(start_id, start_id)
and processes exactly the one id start_id. -/
theorem C8_zero_end_id (runOne : Int → Except String Unit) (s : Int) (hs : 0 < s) :
    handle_range runOne s (some 0) = handle_range runOne s (some s) ∧
    (handle_range runOne s (some 0)).2 = [s] := by
  have hcoal : validate_ids s (some 0) = Except.ok (s, s) := by
    unfold validate_ids
    simp [lt_irrefl, not_lt.mpr (le_refl s)]
  have hself : validate_ids s (some s) = Except.ok (s, s) := by
    unfold validate_ids
    by_cases h0 : s = 0
    · simp [h0]
    · simp [h0]
  have hrange : idRange s s = [s] := by
    unfold idRange
    have h1 : (s - s + 1).toNat = 1 := by omega
    have h2 : List.range 1 = [0] := by decide
    rw [h1, h2]
    norm_num
  constructor
  · unfold handle_range
    rw [hcoal, hself]
  · unfold handle_range
    rw [hcoal]
    dsimp only
    unfold fetch_streaming_data_range
    rw [hrange]
    simp only [List.foldl_cons, List.foldl_nil]
    unfold fetch_and_save_streaming_data
    cases runOne s <;> simp

/-- C8 witness at the concrete start id 150. -/
theorem C8_zero_end_id_witness :
    (0 : Int) < 150 ∧
    (handle_range (fun _ => Except.ok ()) 150 (some 0) =
      handle_range (fun _ => Except.ok ()) 150 (some 150) ∧
    (handle_range (fun _ => Except.ok ()) 150 (some 0)).2 = [150]) :=
  ⟨by decide, C8_zero_end_id (fun _ => Except.ok ()) 150 (by decide)⟩

/-- C5: create_or_update_channel is idempotent — a second call with the
same arguments returns the identical row and leaves the table exactly as
one call left it; under the channel_id unique constraint there is then
exactly one row for the id, and a later call with changed fields updates
that row in place (no length change, still one row for the id, all other
rows untouched). -/
theorem C5_channel_upsert_idempotent (cid : Int) (nm co : String) (rows : List ChannelRow)
    (hinv : rows.countP (fun r => r.channel_id == cid) ≤ 1) :
    create_or_update_channel cid nm co (create_or_update_channel cid nm co rows).2 =
      create_or_update_channel cid nm co rows ∧
    ((create_or_update_channel cid nm co rows).2.countP (fun r => r.channel_id == cid) = 1) ∧
    (create_or_update_channel cid nm co rows).2.filter (fun r => r.channel_id == cid) =
      [{ channel_id := cid, name := nm, company_name := co }] ∧
    ∀ nm2 co2,
      (create_or_update_channel cid nm2 co2 (create_or_update_channel cid nm co rows).2).2.length =
        (create_or_update_channel cid nm co rows).2.length ∧
      (create_or_update_channel cid nm2 co2
          (create_or_update_channel cid nm co rows).2).2.countP
        (fun r => r.channel_id == cid) = 1 ∧
      (create_or_update_channel cid nm2 co2
          (create_or_update_channel cid nm co rows).2).2.filter
        (fun r => r.channel_id == cid) =
        [{ channel_id := cid, name := nm2, company_name := co2 }] ∧
      (create_or_update_channel cid nm2 co2
          (create_or_update_channel cid nm co rows).2).2.filter
        (fun r => !(r.channel_id == cid)) =
        (create_or_update_channel cid nm co rows).2.filter
          (fun r => !(r.channel_id == cid)) := by
  have hp : (fun (r : ChannelRow) => r.channel_id == cid)
      { channel_id := cid, name := nm, company_name := co } = true := by simp
  have hinv1 : ∀ nma coa,
      (upsertList (fun (r : ChannelRow) => r.channel_id == cid)
        { channel_id := cid, name := nma, company_name := coa } rows).countP
        (fun r => r.channel_id == cid) = 1 :=
    fun nma coa => upsertList_countP_pos _ _ rows (by simp) hinv
  refine ⟨?_, ?_, ?_, ?_⟩
  · unfold create_or_update_channel
    simp only [Prod.mk.injEq, true_and]
    exact upsertList_idem _ _ rows hp
  · exact hinv1 nm co
  · exact upsertList_filter_pos _ _ rows hp hinv
  · intro nm2 co2
    have hany : (upsertList (fun (r : ChannelRow) => r.channel_id == cid)
        { channel_id := cid, name := nm, company_name := co } rows).any
        (fun r => r.channel_id == cid) = true :=
      upsertList_any _ _ rows hp
    refine ⟨?_, ?_, ?_, ?_⟩
    · unfold create_or_update_channel
      exact upsertList_length_of_any _ _ _ hany
    · unfold create_or_update_channel
      exact upsertList_countP_pos _ _ _ (by simp) (le_of_eq (hinv1 nm co))
    · unfold create_or_update_channel
      exact upsertList_filter_pos _ _ _ (by simp) (le_of_eq (hinv1 nm co))
    · unfold create_or_update_channel
      apply upsertList_filter_neg
      · simp
      · intro r hr
        simp only [Bool.not_eq_true'] at hr ⊢
        simp only [beq_iff_eq] at hr
        simp [hr]

/-- C5 witness at channel id 7 on the empty table. -/
theorem C5_channel_upsert_idempotent_witness :
    ([] : List ChannelRow).countP (fun r => r.channel_id == 7) ≤ 1 ∧
    (create_or_update_channel 7 "n" "c" (create_or_update_channel 7 "n" "c" []).2 =
      create_or_update_channel 7 "n" "c" [] ∧
    ((create_or_update_channel 7 "n" "c" []).2.countP (fun r => r.channel_id == 7) = 1) ∧
    (create_or_update_channel 7 "n" "c" []).2.filter (fun r => r.channel_id == 7) =
      [{ channel_id := 7, name := "n", company_name := "c" }] ∧
    ∀ nm2 co2,
      (create_or_update_channel 7 nm2 co2 (create_or_update_channel 7 "n" "c" []).2).2.length =
        (create_or_update_channel 7 "n" "c" []).2.length ∧
      (create_or_update_channel 7 nm2 co2
          (create_or_update_channel 7 "n" "c" []).2).2.countP
        (fun r => r.channel_id == 7) = 1 ∧
      (create_or_update_channel 7 nm2 co2
          (create_or_update_channel 7 "n" "c" []).2).2.filter
        (fun r => r.channel_id == 7) =
        [{ channel_id := 7, name := nm2, company_name := co2 }] ∧
      (create_or_update_channel 7 nm2 co2
          (create_or_update_channel 7 "n" "c" []).2).2.filter
        (fun r => !(r.channel_id == 7)) =
        (create_or_update_channel 7 "n" "c" []).2.filter
          (fun r => !(r.channel_id == 7))) :=
  ⟨by decide, C5_channel_upsert_idempotent 7 "n" "c" [] (by decide)⟩

/-- C4 counterexample: from a state whose latest row for streamer id 1
already bears name A, calling save_or_get_streamer with A twice adds no
row at all (the claim, quantified over every starting state, demands
exactly one added row). -/
theorem C4_counterexample :
    (save_or_get_streamer 1 "A" (save_or_get_streamer 1 "A" seededStreamer).2).2 =
      seededStreamer ∧
    (save_or_get_streamer 1 "A" (save_or_get_streamer 1 "A" seededStreamer).2).2.rows.length ≠
      seededStreamer.rows.length + 1 := by
  constructor
  · rfl
  · decide

/-- C4 (amended): from a state holding no row for the given streamer id,
calling with name A then A again appends exactly one row in total and
the second call returns that row with the state unchanged; calling with
A then B (B distinct from A) appends two rows, the B row bearing a
strictly later creation time than the A row; and from any state
whatsoever a call only ever appends — no existing Streamer row is
mutated or deleted. -/
theorem C4_rename_history_append (sid : Int) (A B : String) (t : StreamerTable)
    (hfresh : ∀ r ∈ t.rows, r.streamer_id ≠ sid) :
    (save_or_get_streamer sid A t).2.rows =
      t.rows ++ [{ streamer_id := sid, name := A, created_at := t.clock }] ∧
    save_or_get_streamer sid A (save_or_get_streamer sid A t).2 =
      ({ streamer_id := sid, name := A, created_at := t.clock },
        (save_or_get_streamer sid A t).2) ∧
    (A ≠ B →
      (save_or_get_streamer sid B (save_or_get_streamer sid A t).2).2.rows =
        t.rows ++ [{ streamer_id := sid, name := A, created_at := t.clock },
          { streamer_id := sid, name := B, created_at := t.clock + 1 }] ∧
      t.clock < t.clock + 1) ∧
    (∀ (sid2 : Int) (nm : String) (u : StreamerTable),
      ∃ tail, (save_or_get_streamer sid2 nm u).2.rows = u.rows ++ tail) := by
  have hnil : t.rows.filter (fun r => r.streamer_id == sid) = [] := by
    rw [List.filter_eq_nil_iff]
    intro a ha
    simp [hfresh a ha]
  have hlatest : latest_streamer t.rows sid = none := by
    unfold latest_streamer
    rw [hnil]
    rfl
  have hc1 : save_or_get_streamer sid A t =
      ({ streamer_id := sid, name := A, created_at := t.clock },
        { rows := t.rows ++ [{ streamer_id := sid, name := A, created_at := t.clock }],
          clock := t.clock + 1 }) := by
    unfold save_or_get_streamer
    rw [hlatest]
  set t1 := (save_or_get_streamer sid A t).2 with ht1
  have hrows1 : t1.rows = t.rows ++ [{ streamer_id := sid, name := A, created_at := t.clock }] := by
    rw [ht1, hc1]
  have hclock1 : t1.clock = t.clock + 1 := by
    rw [ht1, hc1]
  have hlatest2 : latest_streamer t1.rows sid =
      some { streamer_id := sid, name := A, created_at := t.clock } := by
    rw [hrows1]
    unfold latest_streamer
    rw [List.filter_append, hnil]
    simp [maxByCreated]
  refine ⟨hrows1, ?_, ?_, ?_⟩
  · unfold save_or_get_streamer
    rw [hlatest2]
    simp
  · intro hAB
    constructor
    · unfold save_or_get_streamer
      rw [hlatest2]
      have hne : ¬ ({ streamer_id := sid, name := A, created_at := t.clock } : StreamerRow).name = B := by
        simpa using hAB
      simp [hne, hrows1, hclock1]
    · omega
  · intro sid2 nm u
    rcases hl : latest_streamer u.rows sid2 with _ | l
    · refine ⟨[{ streamer_id := sid2, name := nm, created_at := u.clock }], ?_⟩
      unfold save_or_get_streamer
      rw [hl]
    · by_cases hn : l.name = nm
      · refine ⟨[], ?_⟩
        unfold save_or_get_streamer
        rw [hl]
        simp [hn]
      · refine ⟨[{ streamer_id := sid2, name := nm, created_at := u.clock }], ?_⟩
        unfold save_or_get_streamer
        rw [hl]
        simp [hn]

/-- C4 witness at streamer id 1 with names A and B on the empty table. -/
theorem C4_rename_history_append_witness :
    (∀ r ∈ (⟨[], 0⟩ : StreamerTable).rows, r.streamer_id ≠ 1) ∧
    ((save_or_get_streamer 1 "A" ⟨[], 0⟩).2.rows =
      [] ++ [{ streamer_id := 1, name := "A", created_at := 0 }] ∧
    save_or_get_streamer 1 "A" (save_or_get_streamer 1 "A" ⟨[], 0⟩).2 =
      ({ streamer_id := 1, name := "A", created_at := 0 },
        (save_or_get_streamer 1 "A" ⟨[], 0⟩).2) ∧
    ("A" ≠ "B" →
      (save_or_get_streamer 1 "B" (save_or_get_streamer 1 "A" ⟨[], 0⟩).2).2.rows =
        [] ++ [{ streamer_id := 1, name := "A", created_at := 0 },
          { streamer_id := 1, name := "B", created_at := 0 + 1 }] ∧
      0 < 0 + 1) ∧
    (∀ (sid2 : Int) (nm : String) (u : StreamerTable),
      ∃ tail, (save_or_get_streamer sid2 nm u).2.rows = u.rows ++ tail)) :=
  ⟨by simp, C4_rename_history_append 1 "A" "B" ⟨[], 0⟩ (by simp)⟩

/-- C1 counterexample: on a payload missing both nicoliveProgramId and
providerType, extraction reports providerType — not nicoliveProgramId as
the claimed precedence order demands. -/
theorem C1_counterexample :
    extract_streaming_data payloadBothMissing =
      Except.error (ExtractError.missingField "providerType") ∧
    extract_streaming_data payloadBothMissing ≠
      Except.error (ExtractError.missingField "nicoliveProgramId") := by
  refine ⟨rfl, fun hc => ?_⟩
  have h3 := hc
  simp only [show extract_streaming_data payloadBothMissing =
    Except.error (ExtractError.missingField "providerType") from rfl] at h3
  exact (by decide : (ExtractError.missingField "providerType" : ExtractError) ≠
    ExtractError.missingField "nicoliveProgramId") (Except.error.inj h3)

/-- C1 (amended): extraction reports the first absent required program
key in the evaluation order of the source — providerType first, then
nicoliveProgramId, title, beginTime, endTime, status; when several keys
are missing simultaneously the earliest in that order is the one
named. -/
theorem C1_missing_field_precedence (d : DataProps) (p : Program) (k : String)
    (hprog : d.program = some p) (hk : firstMissingKey p = some k) :
    extract_streaming_data d = Except.error (ExtractError.missingField k) := by
  cases d with
  | mk dp dsg =>
    simp only at hprog
    subst hprog
    cases hpt : p.providerType with
    | none =>
      simp [firstMissingKey, hpt] at hk
      subst hk
      simp [extract_streaming_data, hpt]
    | some pt =>
      cases hni : p.nicoliveProgramId with
      | none =>
        simp [firstMissingKey, hpt, hni] at hk
        subst hk
        simp [extract_streaming_data, hpt, hni]
      | some ni =>
        cases hti : p.title with
        | none =>
          simp [firstMissingKey, hpt, hni, hti] at hk
          subst hk
          simp [extract_streaming_data, hpt, hni, hti]
        | some ti =>
          cases hbt : p.beginTime with
          | none =>
            simp [firstMissingKey, hpt, hni, hti, hbt, Option.isNone_none] at hk
            subst hk
            simp [extract_streaming_data, hpt, hni, hti, hbt]
          | some bt =>
            cases het : p.endTime with
            | none =>
              simp [firstMissingKey, hpt, hni, hti, hbt, het, Option.isNone_none] at hk
              subst hk
              simp [extract_streaming_data, hpt, hni, hti, hbt, het]
            | some et =>
              cases hst : p.status with
              | none =>
                simp [firstMissingKey, hpt, hni, hti, hbt, het, hst, Option.isNone_none] at hk
                subst hk
                simp [extract_streaming_data, hpt, hni, hti, hbt, het, hst]
              | some st =>
                simp [firstMissingKey, hpt, hni, hti, hbt, het, hst] at hk

/-- C1 witness at the payload missing both nicoliveProgramId and
providerType. -/
theorem C1_missing_field_precedence_witness :
    payloadBothMissing.program = some
      { nicoliveProgramId := none, title := some "t", beginTime := some 0,
        endTime := some 1, status := some "ENDED", providerType := none,
        supplier := none } ∧
    firstMissingKey
      { nicoliveProgramId := none, title := some "t", beginTime := some 0,
        endTime := some 1, status := some "ENDED", providerType := none,
        supplier := none } = some "providerType" ∧
    extract_streaming_data payloadBothMissing =
      Except.error (ExtractError.missingField "providerType") :=
  ⟨rfl, rfl, C1_missing_field_precedence payloadBothMissing
    { nicoliveProgramId := none, title := some "t", beginTime := some 0,
      endTime := some 1, status := some "ENDED", providerType := none,
      supplier := none } "providerType" rfl rfl⟩

theorem streamingKey_mkRow_self (data : StreamingData) (st : StreamerRow)
    (ch : ChannelRow) (sid : Int) :
    streamingKey sid (mkStreamingRow data st ch sid) = true := by
  simp [streamingKey, mkStreamingRow]

theorem apply_one_filter (rows : List StreamingRow) (c : UpsertCall)
    (hinv : ∀ m, rows.countP (streamingKey m) ≤ 1) (n : Int) :
    (apply_one rows c).filter (streamingKey n) =
      match writeRow c with
      | some r => if r.streaming_id = n then [r] else rows.filter (streamingKey n)
      | none => rows.filter (streamingKey n) := by
  cases hid : pyvalToInt c.data.id with
  | none =>
    have h1 : apply_one rows c = rows := by
      unfold apply_one save_or_update_streaming
      rw [hid]
      rfl
    have h2 : writeRow c = none := by
      unfold writeRow
      rw [hid]
      rfl
    rw [h1, h2]
  | some sid =>
    have h1 : apply_one rows c =
        upsertList (streamingKey sid) (mkStreamingRow c.data c.streamer c.channel sid) rows := by
      unfold apply_one save_or_update_streaming
      rw [hid]
      rfl
    have h2 : writeRow c = some (mkStreamingRow c.data c.streamer c.channel sid) := by
      unfold writeRow
      rw [hid]
      rfl
    rw [h1, h2]
    dsimp only
    by_cases hn : sid = n
    · subst hn
      rw [if_pos (show (mkStreamingRow c.data c.streamer c.channel sid).streaming_id = sid
        from rfl)]
      exact upsertList_filter_pos _ _ rows (streamingKey_mkRow_self c.data c.streamer c.channel sid)
        (hinv sid)
    · rw [if_neg (show ¬ (mkStreamingRow c.data c.streamer c.channel sid).streaming_id = n
        from by simpa [mkStreamingRow] using hn)]
      apply upsertList_filter_neg
      · simp [streamingKey, mkStreamingRow, hn]
      · intro r hr
        simp only [streamingKey, beq_iff_eq] at hr ⊢
        simp [hr, hn]

theorem apply_one_inv (rows : List StreamingRow) (c : UpsertCall)
    (hinv : ∀ m, rows.countP (streamingKey m) ≤ 1) :
    ∀ m, (apply_one rows c).countP (streamingKey m) ≤ 1 := by
  intro m
  rw [List.countP_eq_length_filter, apply_one_filter rows c hinv m]
  cases writeRow c with
  | none =>
    rw [← List.countP_eq_length_filter]
    exact hinv m
  | some r =>
    dsimp only
    by_cases hn : r.streaming_id = m
    · rw [if_pos hn]
      simp
    · rw [if_neg hn, ← List.countP_eq_length_filter]
      exact hinv m

theorem apply_upserts_filter (calls : List UpsertCall) (rows : List StreamingRow)
    (hinv : ∀ m, rows.countP (streamingKey m) ≤ 1) :
    (∀ m, (apply_upserts calls rows).countP (streamingKey m) ≤ 1) ∧
    (∀ n, (apply_upserts calls rows).filter (streamingKey n) =
      match lastWrite calls n with
      | some r => [r]
      | none => rows.filter (streamingKey n)) := by
  induction calls using List.reverseRecOn with
  | nil =>
    refine ⟨hinv, fun n => ?_⟩
    simp [apply_upserts, lastWrite]
  | append_singleton cs c ih =>
    obtain ⟨ih_inv, ih_filter⟩ := ih
    have hstep : apply_upserts (cs ++ [c]) rows = apply_one (apply_upserts cs rows) c := by
      unfold apply_upserts
      rw [List.foldl_append]
      rfl
    constructor
    · intro m
      rw [hstep]
      exact apply_one_inv _ c ih_inv m
    · intro n
      rw [hstep, apply_one_filter _ c ih_inv n]
      unfold lastWrite
      rw [List.filterMap_append]
      cases hw : writeRow c with
      | none =>
        simp only [List.filterMap_cons, List.filterMap_nil, hw, List.append_nil]
        exact ih_filter n
      | some r =>
        simp only [List.filterMap_cons, List.filterMap_nil, hw, List.filter_append]
        by_cases hn : r.streaming_id = n
        · have hkey : streamingKey n r = true := by simp [streamingKey, hn]
          simp only [List.filter_cons, hkey, if_true, List.filter_nil, List.getLast?_concat]
          rw [if_pos hn]
        · have hkey : streamingKey n r = false := by simp [streamingKey, hn]
          simp only [List.filter_cons, hkey, List.filter_nil, List.append_nil]
          rw [if_neg hn]
          have := ih_filter n
          unfold lastWrite at this
          simpa using this

/-- C2 counterexample: models.py declares no uniqueness constraint on
Streaming.streaming_id (unlike Channel.channel_id); the claimed enforced
constraint on the Streaming external id does not exist. -/
theorem C2_counterexample :
    Streaming_streaming_id_options.unique = false ∧
    Channel_channel_id_options.unique = true := ⟨rfl, rfl⟩

/-- C2 (amended): the uniqueness constraint is declared on
Channel.channel_id but not on Streaming.streaming_id; nevertheless,
starting from any table holding at most one row per streaming id, any
sequence of save_or_update_streaming calls preserves at-most-one-row per
id, and the row standing for an id afterwards is exactly the one written
by the last successful call for that id (with that call's field values
and streamer/channel references), or the original row when no call wrote
the id. -/
theorem C2_upsert_uniqueness (calls : List UpsertCall) (rows : List StreamingRow)
    (hinv : ∀ m, rows.countP (streamingKey m) ≤ 1) :
    Channel_channel_id_options.unique = true ∧
    Streaming_streaming_id_options.unique = false ∧
    (∀ m, (apply_upserts calls rows).countP (streamingKey m) ≤ 1) ∧
    (∀ n, (apply_upserts calls rows).filter (streamingKey n) =
      match lastWrite calls n with
      | some r => [r]
      | none => rows.filter (streamingKey n)) :=
  ⟨rfl, rfl, (apply_upserts_filter calls rows hinv).1, (apply_upserts_filter calls rows hinv).2⟩

/-- C2 witness: one call on the empty table. -/
theorem C2_upsert_uniqueness_witness :
    (∀ m, ([] : List StreamingRow).countP (streamingKey m) ≤ 1) ∧
    (Channel_channel_id_options.unique = true ∧
    Streaming_streaming_id_options.unique = false ∧
    (∀ m, (apply_upserts [exampleCall] []).countP (streamingKey m) ≤ 1) ∧
    (∀ n, (apply_upserts [exampleCall] []).filter (streamingKey n) =
      match lastWrite [exampleCall] n with
      | some r => [r]
      | none => ([] : List StreamingRow).filter (streamingKey n))) :=
  ⟨fun m => by simp, C2_upsert_uniqueness [exampleCall] [] (fun m => by simp)⟩

theorem save_http_error_eq (code sidInt : Int) (db : Database) :
    save_streaming_with_http_error code sidInt db = some (httpErrorDb code sidInt db) := rfl

/-- C6: for a non-200 response the fetcher extracts the numeric lv id
from the URL (propagating the malformed-URL error when none exists),
persists exactly one sentinel Streaming row carrying the HTTP status
code, the placeholder title and a zero duration, and returns no content;
the later pipeline stages are never invoked — the command result is the
same whatever they would compute. -/
theorem C6_http_error_sentinel (base sid_str : String) (resp : HttpResponse) (db : Database)
    (rest1 rest2 : String → Database → Option Database)
    (hst : resp.status_code ≠ 200) :
    (extract_streaming_id (build_streaming_url base sid_str) = none →
      fetch_html (build_streaming_url base sid_str) resp db = none ∧
      handle_single base sid_str resp rest1 db = none) ∧
    (∀ n : Nat, extract_streaming_id (build_streaming_url base sid_str) = some n →
      db.streamings.countP (streamingKey (Int.ofNat n)) ≤ 1 →
      ∃ db2,
        fetch_html (build_streaming_url base sid_str) resp db = some (none, db2) ∧
        handle_single base sid_str resp rest1 db = some db2 ∧
        handle_single base sid_str resp rest2 db = some db2 ∧
        ∃ r, db2.streamings.filter (streamingKey (Int.ofNat n)) = [r] ∧
          r.streaming_id = Int.ofNat n ∧
          r.status = resp.status_code ∧
          r.title = UNKNOWN_STREAMING_TITLE ∧
          r.duration_time = DurationVal.timedelta 0 ∧
          r.type = StreamingType.UNKNOWN.value ∧
          r.start_time = sentinel_datetime ∧
          r.end_time = sentinel_datetime) := by
  constructor
  · intro hnone
    have hf : fetch_html (build_streaming_url base sid_str) resp db = none := by
      unfold fetch_html
      rw [if_neg hst, hnone]
      rfl
    refine ⟨hf, ?_⟩
    unfold handle_single
    rw [hf]
  · intro n hsome hinv
    refine ⟨httpErrorDb resp.status_code (Int.ofNat n) db, ?_, ?_, ?_, ?_⟩
    case _ =>
      unfold fetch_html
      rw [if_neg hst, hsome]
      simp only [option_some_bind]
      rw [save_http_error_eq]
      simp only [option_some_bind]
    case _ =>
      unfold handle_single fetch_html
      rw [if_neg hst, hsome]
      simp only [option_some_bind]
      rw [save_http_error_eq]
      simp only [option_some_bind]
    case _ =>
      unfold handle_single fetch_html
      rw [if_neg hst, hsome]
      simp only [option_some_bind]
      rw [save_http_error_eq]
      simp only [option_some_bind]
    case _ =>
      refine ⟨httpErrorRow resp.status_code (Int.ofNat n) db, ?_, rfl, rfl, rfl, rfl, rfl, rfl,
        rfl⟩
      simp only [httpErrorDb, httpErrorRow]
      exact upsertList_filter_pos _ _ db.streamings
        (streamingKey_mkRow_self _ _ _ (Int.ofNat n)) hinv

/-- C6 witness: a 404 response for id 123456789 on the empty database,
with two distinct dummy continuations. -/
theorem C6_http_error_sentinel_witness :
    ((404 : Int) ≠ 200) ∧
    (extract_streaming_id (build_streaming_url "https://live.nicovideo.jp/watch/lv" "123456789") =
      some 123456789) ∧
    (({ streamers := ⟨[], 0⟩, channels := [], streamings := [] } :
        Database).streamings.countP (streamingKey (Int.ofNat 123456789)) ≤ 1) ∧
    (∃ db2,
      fetch_html (build_streaming_url "https://live.nicovideo.jp/watch/lv" "123456789")
        { status_code := 404, text := "" }
        { streamers := ⟨[], 0⟩, channels := [], streamings := [] } = some (none, db2) ∧
      handle_single "https://live.nicovideo.jp/watch/lv" "123456789"
        { status_code := 404, text := "" } (fun _ db => some db)
        { streamers := ⟨[], 0⟩, channels := [], streamings := [] } = some db2 ∧
      handle_single "https://live.nicovideo.jp/watch/lv" "123456789"
        { status_code := 404, text := "" } (fun _ _ => none)
        { streamers := ⟨[], 0⟩, channels := [], streamings := [] } = some db2 ∧
      ∃ r, db2.streamings.filter (streamingKey (Int.ofNat 123456789)) = [r] ∧
        r.streaming_id = Int.ofNat 123456789 ∧
        r.status = ({ status_code := 404, text := "" } : HttpResponse).status_code ∧
        r.title = UNKNOWN_STREAMING_TITLE ∧
        r.duration_time = DurationVal.timedelta 0 ∧
        r.type = StreamingType.UNKNOWN.value ∧
        r.start_time = sentinel_datetime ∧
        r.end_time = sentinel_datetime) :=
  ⟨by decide, by decide, by decide,
    (C6_http_error_sentinel "https://live.nicovideo.jp/watch/lv" "123456789"
      { status_code := 404, text := "" }
      { streamers := ⟨[], 0⟩, channels := [], streamings := [] }
      (fun _ db => some db) (fun _ _ => none) (by decide)).2 123456789 (by decide) (by decide)⟩

theorem fetch_range_loop (runOne : Int → Except String Unit) (l : List Int)
    (acc : List LogEntry × List Int) :
    l.foldl (fun a i =>
      let step := fetch_and_save_streaming_data runOne i
      (a.1 ++ step.1, a.2 ++ step.2)) acc =
    (acc.1 ++ l.filterMap (failureEntry runOne), acc.2 ++ l) := by
  induction l generalizing acc with
  | nil => simp
  | cons i tl ih =>
    rw [List.foldl_cons, ih]
    unfold fetch_and_save_streaming_data failureEntry
    cases hr : runOne i <;> simp [List.filterMap_cons, hr]

/-- C9: for every validated range start_id ≤ end_id the orchestrator
invokes the single-id pipeline exactly once per id of the inclusive
range, in strictly ascending order (the invocation list is sorted,
duplicate-free, and holds precisely the ids between the bounds); a
per-id failure only contributes an error log entry and never stops the
remaining ids; and whenever validation succeeded the command output is
the start marker, the per-id failure entries, and the completion marker
— emitted regardless of how many ids failed. -/
theorem C9_range_orchestration (runOne : Int → Except String Unit) (s e : Int)
    (h : s ≤ e) :
    (fetch_streaming_data_range runOne s e).2 = idRange s e ∧
    (fetch_streaming_data_range runOne s e).1 =
      (idRange s e).filterMap (failureEntry runOne) ∧
    List.Sorted (fun a b : Int => a < b) (idRange s e) ∧
    (idRange s e).Nodup ∧
    (∀ i : Int, i ∈ idRange s e ↔ s ≤ i ∧ i ≤ e) ∧
    (validate_ids s (some e) = Except.ok (s, e) →
      (handle_range runOne s (some e)).1 =
        Except.ok ([LogEntry.start s e] ++
          (idRange s e).filterMap (failureEntry runOne) ++ [LogEntry.done s e]) ∧
      (handle_range runOne s (some e)).2 = idRange s e) := by
  have hloop : fetch_streaming_data_range runOne s e =
      ((idRange s e).filterMap (failureEntry runOne), idRange s e) := by
    unfold fetch_streaming_data_range
    rw [fetch_range_loop]
    simp
  have hsorted : List.Sorted (fun a b : Int => a < b) (idRange s e) := by
    unfold idRange
    exact List.Pairwise.map _ (fun a b hab => by omega)
      (List.pairwise_lt_range ((e - s + 1).toNat))
  refine ⟨by rw [hloop], by rw [hloop], hsorted, hsorted.nodup, ?_, ?_⟩
  · intro i
    unfold idRange
    simp only [List.mem_map, List.mem_range]
    constructor
    · rintro ⟨j, hj, rfl⟩
      omega
    · rintro ⟨h1, h2⟩
      exact ⟨(i - s).toNat, by omega, by omega⟩
  · intro hv
    unfold handle_range
    rw [hv]
    dsimp only
    rw [hloop]
    exact ⟨rfl, rfl⟩

/-- C9 witness on the range 1..2 with a pipeline failing at id 1. -/
theorem C9_range_orchestration_witness :
    (1 : Int) ≤ 2 ∧
    ((fetch_streaming_data_range
        (fun i => if i = 1 then Except.error "x" else Except.ok ()) 1 2).2 = idRange 1 2 ∧
    (fetch_streaming_data_range
        (fun i => if i = 1 then Except.error "x" else Except.ok ()) 1 2).1 =
      (idRange 1 2).filterMap
        (failureEntry (fun i => if i = 1 then Except.error "x" else Except.ok ())) ∧
    List.Sorted (fun a b : Int => a < b) (idRange 1 2) ∧
    (idRange 1 2).Nodup ∧
    (∀ i : Int, i ∈ idRange 1 2 ↔ 1 ≤ i ∧ i ≤ 2) ∧
    (validate_ids 1 (some 2) = Except.ok (1, 2) →
      (handle_range (fun i => if i = 1 then Except.error "x" else Except.ok ()) 1 (some 2)).1 =
        Except.ok ([LogEntry.start 1 2] ++
          (idRange 1 2).filterMap
            (failureEntry (fun i => if i = 1 then Except.error "x" else Except.ok ())) ++
          [LogEntry.done 1 2]) ∧
      (handle_range (fun i => if i = 1 then Except.error "x" else Except.ok ())
        1 (some 2)).2 = idRange 1 2)) :=
  ⟨by decide,
    C9_range_orchestration (fun i => if i = 1 then Except.error "x" else Except.ok ()) 1 2
      (by decide)⟩

end Nicodb
